import Mathlib

/-!
Shallow embedding of the persistent bash-session tool
(`scripts/bash_tool.py`): the `_BashSession` protocol engine
(`start`, `stop`, `run`) and the `BashTool.forward` facade.

Byte streams are modelled as `List Char`.  The asynchronous environment
(what the spawned shell appends to the stdout/stderr pipe buffers) is
passed to `run` as two explicit parameters `arrivedOut`/`arrivedErr`:
the bytes that have accumulated in each stream buffer by the time the
polling loop either observes the sentinel or hits the timeout deadline.
If the sentinel occurs in the resulting stdout buffer, the poll loop
exits with the success path; otherwise the 120-second timeout fires,
exactly as in the source.  Python exceptions are reified as an explicit
`raisedException` result constructor.
-/

/-- `_BashSession._sentinel = "<<exit>>"` as a character list. -/
def sentinelChars : List Char := String.toList "<<exit>>"

/-- The single-quote character (code 39), used in the bytes the engine
writes to the shell's stdin. -/
def quoteChar : Char := Char.ofNat 39

/-- The exact bytes `run` writes to the process's stdin for a command:
`command.encode() + f"; echo '<<exit>>'\n".encode()`. -/
def writtenBytes (command : List Char) : List Char :=
  command ++ String.toList "; echo " ++ [quoteChar] ++ sentinelChars ++ [quoteChar, '\n']

/-- Message of the exception raised when the session was never started. -/
def notStartedMsg : List Char := String.toList "Session has not started."

/-- Message of the timeout exception
(`self._timeout = 120.0`, interpolated by the f-string). -/
def timedOutMsg : List Char :=
  String.toList "timed out: bash has not returned in 120.0 seconds and must be restarted"

/-- The `"system"` field of the structured result returned when the
backend process has exited. -/
def mustRestartMsg : List Char := String.toList "tool must be restarted"

/-- The `"error"` field accompanying `mustRestartMsg`:
`f"bash has exited with returncode {self._process.returncode}"`. -/
def exitedMsg (rc : Int) : List Char :=
  String.toList "bash has exited with returncode " ++ String.toList (toString rc)

/-- Acknowledgement returned by `forward` on restart. -/
def restartedMsg : List Char := String.toList "tool has been restarted"

/-- Message of the exception `forward` raises on an empty command. -/
def noCommandMsg : List Char := String.toList "no command provided."

/-- `leadsWith p l` holds when `p` is an initial segment of `l`
(Python `l.startswith(p)` at a fixed offset). -/
def leadsWith : List Char → List Char → Bool
  | [], _ => true
  | _ :: _, [] => false
  | c :: cs, d :: ds => c == d && leadsWith cs ds

/-- Index of the first occurrence of `sent` in `buf`
(Python `buf.index(sent)`), `none` when absent (`sent not in buf`). -/
def findSentinelFrom (sent : List Char) : List Char → Option Nat
  | [] => if sent = [] then some 0 else none
  | c :: rest =>
    if leadsWith sent (c :: rest) then some 0
    else (findSentinelFrom sent rest).map (fun n => n + 1)

/-- Python `sent in buf`. -/
def occursIn (sent buf : List Char) : Bool :=
  (findSentinelFrom sent buf).isSome

/-- `if s.endswith("\n"): s = s[:-1]` — strip exactly one trailing newline. -/
def stripTrailingNewline (s : List Char) : List Char :=
  if s.getLast? = some '\n' then s.dropLast else s

/-- The result value a call produces: a Python dict of one of the three
shapes the source returns, or a raised exception. -/
inductive ToolResult where
  /-- `{"output": output, "error": error}` — successful command. -/
  | outputResult (output error : List Char)
  /-- `{"system": msg}` — restart acknowledgement. -/
  | systemResult (msg : List Char)
  /-- `{"system": msg, "error": err}` — backend exited, must restart. -/
  | systemErrorResult (msg err : List Char)
  /-- `raise Exception(msg)` propagating out of the call. -/
  | raisedException (msg : List Char)
  deriving DecidableEq, Repr

/-- State of one `_BashSession`: the `_started` and `_timed_out` flags,
the backend process's `returncode` (`none` while it is still running,
also standing in for "no process yet"), and the two pipe buffers. -/
structure BashSession where
  started : Bool
  timedOut : Bool
  returncode : Option Int
  stdoutBuf : List Char
  stderrBuf : List Char
  deriving DecidableEq, Repr

/-- `_BashSession.__init__`. -/
def mkSession : BashSession :=
  { started := false, timedOut := false, returncode := none,
    stdoutBuf := [], stderrBuf := [] }

/-- `_BashSession.start`: spawn the process unless already started
(idempotent); fresh process means live (`returncode = none`) with empty
pipe buffers.  `_timed_out` is not touched by `start`. -/
def BashSession.start (s : BashSession) : BashSession :=
  if s.started then s
  else { s with started := true, returncode := none, stdoutBuf := [], stderrBuf := [] }

/-- Result of `_BashSession.stop`: either a no-op/terminate, or the
exception raised when the session was never started. -/
inductive StopResult where
  | ok
  | raisedStop (msg : List Char)
  deriving DecidableEq, Repr

/-- `_BashSession.stop`: raises if not started; otherwise a no-op when
the process has already exited, else terminates it. -/
def BashSession.stop (s : BashSession) : StopResult :=
  if s.started = false then .raisedStop notStartedMsg else .ok

/-- Outcome of one `run` call: the produced result, the bytes written to
the process's stdin (`none` when the call failed before writing), and
the session state afterwards. -/
structure RunOutcome where
  result : ToolResult
  written : Option (List Char)
  session : BashSession
  deriving DecidableEq, Repr

/-- `_BashSession.run(command)`.  `arrivedOut`/`arrivedErr` are the bytes
the environment appended to the stdout/stderr buffers by the time the
polling loop last inspected them (see the module docstring). -/
def BashSession.run (s : BashSession) (command : List Char)
    (arrivedOut arrivedErr : List Char) : RunOutcome :=
  if s.started = false then
    ⟨.raisedException notStartedMsg, none, s⟩
  else
    match s.returncode with
    | some rc => ⟨.systemErrorResult mustRestartMsg (exitedMsg rc), none, s⟩
    | none =>
      if s.timedOut then
        ⟨.raisedException timedOutMsg, none, s⟩
      else
        let w := writtenBytes command
        let buf := s.stdoutBuf ++ arrivedOut
        let errBuf := s.stderrBuf ++ arrivedErr
        match findSentinelFrom sentinelChars buf with
        | some i =>
          ⟨.outputResult (stripTrailingNewline (buf.take i))
              (stripTrailingNewline errBuf),
            some w,
            { s with stdoutBuf := [], stderrBuf := [] }⟩
        | none =>
          ⟨.raisedException timedOutMsg, some w,
            { s with timedOut := true, stdoutBuf := buf, stderrBuf := errBuf }⟩

/-- A freshly constructed and started session, the only kind the facade
ever stores: `_BashSession()` followed by `start()`. -/
def startedFresh : BashSession := mkSession.start

/-- Outcome of one `BashTool.forward` call: the result, the facade's
`_session` field afterwards, and the bytes written to stdin (if any). -/
structure ForwardOutcome where
  result : ToolResult
  session : Option BashSession
  written : Option (List Char)
  deriving DecidableEq, Repr

/-- `BashTool.forward(command, restart)` over the facade state
`sess = self._session`.  `arrivedOut`/`arrivedErr` parameterize the
environment for the delegated `run`, as above. -/
def BashTool.forward (sess : Option BashSession) (command : List Char)
    (restart : Bool) (arrivedOut arrivedErr : List Char) : ForwardOutcome :=
  if restart then
    match sess with
    | some s =>
      match s.stop with
      | .raisedStop m => ⟨.raisedException m, some s, none⟩
      | .ok => ⟨.systemResult restartedMsg, some startedFresh, none⟩
    | none => ⟨.systemResult restartedMsg, some startedFresh, none⟩
  else
    let s := match sess with
      | none => startedFresh
      | some s => s
    if command ≠ [] then
      let o := s.run command arrivedOut arrivedErr
      ⟨o.result, some o.session, o.written⟩
    else
      ⟨.raisedException noCommandMsg, some s, none⟩

/-! ### Lemmas about sentinel search -/

theorem leadsWith_refl_append (p b : List Char) : leadsWith p (p ++ b) = true := by
  induction p with
  | nil => rfl
  | cons c cs ih => simp [leadsWith, ih]

theorem leadsWith_of_append (p : List Char) :
    ∀ a rest : List Char, leadsWith p (a ++ rest) = true → p.length ≤ a.length →
      leadsWith p a = true := by
  induction p with
  | nil => intro a rest _ _; rfl
  | cons c cs ih =>
    intro a rest h hle
    cases a with
    | nil => simp at hle
    | cons d a2 =>
      simp only [List.cons_append, leadsWith, Bool.and_eq_true] at h
      simp only [leadsWith, Bool.and_eq_true]
      exact ⟨h.1, ih a2 rest h.2 (by simpa using hle)⟩

theorem leadsWith_split (a : List Char) :
    ∀ p rest : List Char, leadsWith p (a ++ rest) = true → a.length < p.length →
      p.take a.length = a ∧ leadsWith (p.drop a.length) rest = true := by
  induction a with
  | nil => intro p rest h _; exact ⟨rfl, h⟩
  | cons d a2 ih =>
    intro p rest h hlt
    cases p with
    | nil => simp at hlt
    | cons c cs =>
      simp only [List.cons_append, leadsWith, Bool.and_eq_true, beq_iff_eq] at h
      obtain ⟨rfl, h2⟩ := h
      obtain ⟨ht, hd⟩ := ih cs rest h2 (by simpa using hlt)
      refine ⟨?_, ?_⟩
      · simp [List.take, ht]
      · simpa using hd

theorem sentinelChars_length : sentinelChars.length = 8 := by decide

theorem sentNoOverlap :
    ∀ m < 8, 0 < m → leadsWith (sentinelChars.drop m) sentinelChars = false := by
  decide

theorem findSentinelFrom_zero_of_leadsWith (sent l : List Char)
    (hs : sent ≠ []) (h : leadsWith sent l = true) :
    findSentinelFrom sent l = some 0 := by
  cases l with
  | nil =>
    cases sent with
    | nil => exact absurd rfl hs
    | cons c cs => simp [leadsWith] at h
  | cons c rest => simp [findSentinelFrom, h]

theorem occursIn_of_leadsWith (sent l : List Char)
    (hs : sent ≠ []) (h : leadsWith sent l = true) :
    occursIn sent l = true := by
  simp [occursIn, findSentinelFrom_zero_of_leadsWith sent l hs h]

theorem occursIn_cons_false (sent : List Char) (c : Char) (rest : List Char)
    (h : occursIn sent (c :: rest) = false) :
    leadsWith sent (c :: rest) = false ∧ occursIn sent rest = false := by
  simp only [occursIn, findSentinelFrom] at h ⊢
  by_cases hl : leadsWith sent (c :: rest) = true
  · simp [hl] at h
  · simp only [Bool.not_eq_true] at hl
    refine ⟨hl, ?_⟩
    simp only [hl, if_neg] at h
    cases hf : findSentinelFrom sent rest with
    | none => simp
    | some i => simp [hf, Bool.false_eq_true] at h

theorem notLeads (a b : List Char) (ha : a ≠ [])
    (hocc : occursIn sentinelChars a = false) :
    leadsWith sentinelChars (a ++ sentinelChars ++ b) = false := by
  cases hlw : leadsWith sentinelChars (a ++ sentinelChars ++ b) with
  | false => rfl
  | true =>
    exfalso
    rcases Nat.lt_or_ge a.length sentinelChars.length with hlt | hge
    · have hsplit := leadsWith_split a sentinelChars (sentinelChars ++ b)
        (by simpa [List.append_assoc] using hlw) hlt
      have hlen : (sentinelChars.drop a.length).length ≤ sentinelChars.length := by
        simp [List.length_drop]
      have hlead2 := leadsWith_of_append (sentinelChars.drop a.length)
        sentinelChars b hsplit.2 hlen
      have hpos : 0 < a.length := List.length_pos.mpr ha
      have := sentNoOverlap a.length (by simpa [sentinelChars_length] using hlt) hpos
      rw [this] at hlead2
      exact Bool.false_ne_true hlead2
    · have hlead := leadsWith_of_append sentinelChars a (sentinelChars ++ b)
        (by simpa [List.append_assoc] using hlw) hge
      have := occursIn_of_leadsWith sentinelChars a (by decide) hlead
      rw [hocc] at this
      exact Bool.false_ne_true this

theorem findSentinel_append (a b : List Char)
    (hocc : occursIn sentinelChars a = false) :
    findSentinelFrom sentinelChars (a ++ sentinelChars ++ b) = some a.length := by
  induction a with
  | nil =>
    have : leadsWith sentinelChars (sentinelChars ++ b) = true :=
      leadsWith_refl_append sentinelChars b
    simpa using findSentinelFrom_zero_of_leadsWith sentinelChars
      (sentinelChars ++ b) (by decide) this
  | cons c a2 ih =>
    obtain ⟨_, hocc2⟩ := occursIn_cons_false sentinelChars c a2 hocc
    have hnl := notLeads (c :: a2) b (by simp) hocc
    have hih := ih hocc2
    simp only [List.cons_append, List.append_assoc] at hnl hih ⊢
    simp [findSentinelFrom, hnl, hih]

theorem take_len_append (a b : List Char) : (a ++ b).take a.length = a := by
  induction a with
  | nil => simp
  | cons c a2 ih => simp [ih]

/-! ### Shared characterizations of `run` -/

theorem run_success_eq (s : BashSession) (command arrivedOut arrivedErr : List Char)
    (i : Nat) (hst : s.started = true) (hto : s.timedOut = false)
    (hrc : s.returncode = none)
    (hfind : findSentinelFrom sentinelChars (s.stdoutBuf ++ arrivedOut) = some i) :
    s.run command arrivedOut arrivedErr =
      ⟨ToolResult.outputResult (stripTrailingNewline ((s.stdoutBuf ++ arrivedOut).take i))
          (stripTrailingNewline (s.stderrBuf ++ arrivedErr)),
        some (writtenBytes command),
        { s with stdoutBuf := [], stderrBuf := [] }⟩ := by
  simp [BashSession.run, hst, hto, hrc, hfind]

theorem run_timeout_eq (s : BashSession) (command arrivedOut arrivedErr : List Char)
    (hst : s.started = true) (hto : s.timedOut = false)
    (hrc : s.returncode = none)
    (hfind : findSentinelFrom sentinelChars (s.stdoutBuf ++ arrivedOut) = none) :
    s.run command arrivedOut arrivedErr =
      ⟨ToolResult.raisedException timedOutMsg, some (writtenBytes command),
        { s with
            timedOut := true
            stdoutBuf := s.stdoutBuf ++ arrivedOut
            stderrBuf := s.stderrBuf ++ arrivedErr }⟩ := by
  simp [BashSession.run, hst, hto, hrc, hfind]

/-- A session that has already timed out (sticky flag set). -/
def timedOutSession : BashSession := { startedFresh with timedOut := true }

/-- A session whose backend process has exited with returncode 0. -/
def exitedSession : BashSession := { startedFresh with returncode := some (0 : Int) }

/-! ### Claim theorems -/

/-- C1: for every command whose captured stdout and stderr do not contain
the sentinel string, executing it on a Running session (clean buffers)
returns a result whose output field equals the command's captured
standard-output bytes (which precede the echoed sentinel) with at most one
trailing newline removed, and whose error field equals the captured
standard-error bytes with at most one trailing newline removed. -/
theorem claim1_run_extracts_streams (s : BashSession)
    (command cmdOut cmdErr : List Char)
    (hst : s.started = true) (hto : s.timedOut = false)
    (hrc : s.returncode = none)
    (hob : s.stdoutBuf = []) (heb : s.stderrBuf = [])
    (hnoOut : occursIn sentinelChars cmdOut = false)
    (hnoErr : occursIn sentinelChars cmdErr = false) :
    (s.run command (cmdOut ++ sentinelChars ++ ['\n']) cmdErr).result =
      ToolResult.outputResult (stripTrailingNewline cmdOut)
        (stripTrailingNewline cmdErr) := by
  have hfind : findSentinelFrom sentinelChars
      (s.stdoutBuf ++ (cmdOut ++ sentinelChars ++ ['\n'])) = some cmdOut.length := by
    rw [hob, List.nil_append]
    exact findSentinel_append cmdOut ['\n'] hnoOut
  rw [run_success_eq s command (cmdOut ++ sentinelChars ++ ['\n']) cmdErr
    cmdOut.length hst hto hrc hfind]
  have htake : (s.stdoutBuf ++ (cmdOut ++ sentinelChars ++ ['\n'])).take cmdOut.length
      = cmdOut := by
    rw [hob, List.nil_append, List.append_assoc]
    exact take_len_append cmdOut (sentinelChars ++ ['\n'])
  rw [htake, heb, List.nil_append]

/-- C1 witness: `execute("echo hello")` on a fresh session yields
`{output: "hello", error: ""}`. -/
theorem claim1_witness :
    startedFresh.started = true ∧ startedFresh.timedOut = false ∧
    startedFresh.returncode = none ∧ startedFresh.stdoutBuf = [] ∧
    startedFresh.stderrBuf = [] ∧
    occursIn sentinelChars (String.toList "hello\n") = false ∧
    occursIn sentinelChars ([] : List Char) = false ∧
    (startedFresh.run (String.toList "echo hello")
        (String.toList "hello\n" ++ sentinelChars ++ ['\n']) []).result =
      ToolResult.outputResult (stripTrailingNewline (String.toList "hello\n"))
        (stripTrailingNewline ([] : List Char)) ∧
    stripTrailingNewline (String.toList "hello\n") = String.toList "hello" ∧
    stripTrailingNewline ([] : List Char) = [] :=
  ⟨by decide, by decide, by decide, by decide, by decide, by decide, by decide,
   claim1_run_extracts_streams startedFresh (String.toList "echo hello")
     (String.toList "hello\n") [] (by decide) (by decide) (by decide)
     (by decide) (by decide) (by decide) (by decide),
   by decide, by decide⟩

/-- C8: after every successful command execution (one returning an
`{output, error}` dict), both the stdout and the stderr buffer of the
resulting session are empty, so no stale byte can leak into a later
command's result. -/
theorem claim8_buffers_cleared (s : BashSession)
    (command arrivedOut arrivedErr out err : List Char)
    (h : (s.run command arrivedOut arrivedErr).result
        = ToolResult.outputResult out err) :
    (s.run command arrivedOut arrivedErr).session.stdoutBuf = [] ∧
    (s.run command arrivedOut arrivedErr).session.stderrBuf = [] := by
  cases hst : s.started with
  | false => simp [BashSession.run, hst] at h
  | true =>
    cases hrc : s.returncode with
    | some rc => simp [BashSession.run, hst, hrc] at h
    | none =>
      cases hto : s.timedOut with
      | true => simp [BashSession.run, hst, hrc, hto] at h
      | false =>
        cases hfind : findSentinelFrom sentinelChars (s.stdoutBuf ++ arrivedOut) with
        | none => simp [BashSession.run, hst, hrc, hto, hfind] at h
        | some i => simp [BashSession.run, hst, hrc, hto, hfind]

/-- C8 witness: a concrete successful `echo hello` run leaves both
buffers empty. -/
theorem claim8_witness :
    (startedFresh.run (String.toList "echo hello")
        (String.toList "hello\n<<exit>>\n") []).result
      = ToolResult.outputResult (String.toList "hello") [] ∧
    ((startedFresh.run (String.toList "echo hello")
        (String.toList "hello\n<<exit>>\n") []).session.stdoutBuf = [] ∧
     (startedFresh.run (String.toList "echo hello")
        (String.toList "hello\n<<exit>>\n") []).session.stderrBuf = []) :=
  ⟨by decide,
   claim8_buffers_cleared startedFresh (String.toList "echo hello")
     (String.toList "hello\n<<exit>>\n") [] (String.toList "hello") [] (by decide)⟩

/-- C3: when the sentinel is not observed within the timeout, the call
fails with the timeout exception and sets the sticky timed-out flag;
every subsequent command on that same session fails immediately with the
same exception, with nothing written to the process's stdin, and leaves
the session unchanged (so the flag stays sticky). -/
theorem claim3_timeout_sticky (s : BashSession)
    (command arrivedOut arrivedErr : List Char)
    (hst : s.started = true) (hto : s.timedOut = false)
    (hrc : s.returncode = none)
    (hfind : findSentinelFrom sentinelChars (s.stdoutBuf ++ arrivedOut) = none) :
    (s.run command arrivedOut arrivedErr).result
        = ToolResult.raisedException timedOutMsg ∧
    (s.run command arrivedOut arrivedErr).session.timedOut = true ∧
    ∀ command2 arrivedOut2 arrivedErr2 : List Char,
      ((s.run command arrivedOut arrivedErr).session.run
          command2 arrivedOut2 arrivedErr2).result
        = ToolResult.raisedException timedOutMsg ∧
      ((s.run command arrivedOut arrivedErr).session.run
          command2 arrivedOut2 arrivedErr2).written = none ∧
      ((s.run command arrivedOut arrivedErr).session.run
          command2 arrivedOut2 arrivedErr2).session
        = (s.run command arrivedOut arrivedErr).session := by
  rw [run_timeout_eq s command arrivedOut arrivedErr hst hto hrc hfind]
  refine ⟨rfl, rfl, ?_⟩
  intro command2 arrivedOut2 arrivedErr2
  refine ⟨?_, ?_, ?_⟩ <;> simp [BashSession.run, hst, hrc]

/-- C3 witness: `sleep 1000` with no sentinel arriving times out on a
fresh session; a following `echo hi` on the same session fails
immediately without a write. -/
theorem claim3_witness :
    startedFresh.started = true ∧ startedFresh.timedOut = false ∧
    startedFresh.returncode = none ∧
    findSentinelFrom sentinelChars (startedFresh.stdoutBuf ++ []) = none ∧
    (startedFresh.run (String.toList "sleep 1000") [] []).result
        = ToolResult.raisedException timedOutMsg ∧
    (startedFresh.run (String.toList "sleep 1000") [] []).session.timedOut = true ∧
    ((startedFresh.run (String.toList "sleep 1000") [] []).session.run
        (String.toList "echo hi") [] []).result
      = ToolResult.raisedException timedOutMsg ∧
    ((startedFresh.run (String.toList "sleep 1000") [] []).session.run
        (String.toList "echo hi") [] []).written = none :=
  ⟨by decide, by decide, by decide, by decide,
   (claim3_timeout_sticky startedFresh (String.toList "sleep 1000") [] []
     (by decide) (by decide) (by decide) (by decide)).1,
   (claim3_timeout_sticky startedFresh (String.toList "sleep 1000") [] []
     (by decide) (by decide) (by decide) (by decide)).2.1,
   ((claim3_timeout_sticky startedFresh (String.toList "sleep 1000") [] []
     (by decide) (by decide) (by decide) (by decide)).2.2
     (String.toList "echo hi") [] []).1,
   ((claim3_timeout_sticky startedFresh (String.toList "sleep 1000") [] []
     (by decide) (by decide) (by decide) (by decide)).2.2
     (String.toList "echo hi") [] []).2.1⟩

/-- C4: on a session whose backend process has exited on its own
(`returncode` set), `run` returns the structured "must restart" dict —
not a raised exception — and writes nothing to the process's stdin. -/
theorem claim4_exited_must_restart (s : BashSession) (rc : Int)
    (command arrivedOut arrivedErr : List Char)
    (hst : s.started = true) (hrc : s.returncode = some rc) :
    (s.run command arrivedOut arrivedErr).result
        = ToolResult.systemErrorResult mustRestartMsg (exitedMsg rc) ∧
    (s.run command arrivedOut arrivedErr).written = none := by
  refine ⟨?_, ?_⟩ <;> simp [BashSession.run, hst, hrc]

/-- C4 witness: a session whose process exited with returncode 0 rejects
`ls` with the structured must-restart result and no write. -/
theorem claim4_witness :
    exitedSession.started = true ∧ exitedSession.returncode = some 0 ∧
    ((exitedSession.run (String.toList "ls") [] []).result
        = ToolResult.systemErrorResult mustRestartMsg (exitedMsg 0) ∧
     (exitedSession.run (String.toList "ls") [] []).written = none) :=
  ⟨by decide, by decide,
   claim4_exited_must_restart exitedSession 0 (String.toList "ls") [] []
     (by decide) (by decide)⟩

/-- C5: a `forward` call with `restart=true` — from no session, or from
any started prior session (Running, TimedOut or Exited) — tears the old
session down without error, installs a brand-new started session in the
Running state, returns the restart acknowledgement, and never executes
the supplied command text (nothing written to stdin). -/
theorem claim5_restart_fresh_running (sess : Option BashSession)
    (command arrivedOut arrivedErr : List Char)
    (h : sess = none ∨ ∃ s, sess = some s ∧ s.started = true) :
    BashTool.forward sess command true arrivedOut arrivedErr
        = ⟨ToolResult.systemResult restartedMsg, some startedFresh, none⟩ ∧
    startedFresh.started = true ∧ startedFresh.timedOut = false ∧
    startedFresh.returncode = none := by
  refine ⟨?_, by decide, by decide, by decide⟩
  rcases h with rfl | ⟨s, rfl, hs⟩
  · rfl
  · simp [BashTool.forward, BashSession.stop, hs]

/-- C5 witness: restarting over a timed-out session returns the
acknowledgement and installs a fresh Running session; the command text
is not executed. -/
theorem claim5_witness :
    (some timedOutSession = none ∨
      ∃ s, some timedOutSession = some s ∧ s.started = true) ∧
    (BashTool.forward (some timedOutSession) (String.toList "echo hello") true [] []
        = ⟨ToolResult.systemResult restartedMsg, some startedFresh, none⟩ ∧
     startedFresh.started = true ∧ startedFresh.timedOut = false ∧
     startedFresh.returncode = none) :=
  ⟨Or.inr ⟨timedOutSession, rfl, by decide⟩,
   claim5_restart_fresh_running (some timedOutSession)
     (String.toList "echo hello") [] []
     (Or.inr ⟨timedOutSession, rfl, by decide⟩)⟩

/-- C2 (evaluated at the failing input): a `forward` call with
`restart=false` and an empty command, on a facade that already holds a
Running session, raises the "no command provided." exception with
nothing written — it is not delegated to `run` as a poll, contradicting
the tool's own input description ("Can be empty to view additional
logs"). -/
theorem claim2_empty_command_rejected_despite_session :
    (BashTool.forward (some startedFresh) [] false [] []).result
        = ToolResult.raisedException noCommandMsg ∧
    (BashTool.forward (some startedFresh) [] false [] []).written = none ∧
    (BashTool.forward (some startedFresh) [] false [] []).session
        = some startedFresh := by
  decide

/-- C6 counterexample: not every user-impacting failure becomes a
structured result value — the timeout and the empty-command conditions
surface as raised exceptions. -/
theorem claim6_counterexample :
    (startedFresh.run (String.toList "sleep 1000") [] []).result
        = ToolResult.raisedException timedOutMsg ∧
    (BashTool.forward none [] false [] []).result
        = ToolResult.raisedException noCommandMsg := by
  decide

/-- C6 amended: of the three user-impacting failure conditions, only the
backend-exited condition is converted into a structured, descriptive
result dict; the timeout and no-command conditions surface as raised
exceptions carrying descriptive messages. -/
theorem claim6_amended_error_surface :
    (∀ (s : BashSession) (rc : Int) (command arrivedOut arrivedErr : List Char),
        s.started = true → s.returncode = some rc →
        (s.run command arrivedOut arrivedErr).result
            = ToolResult.systemErrorResult mustRestartMsg (exitedMsg rc)) ∧
    (∀ (s : BashSession) (command arrivedOut arrivedErr : List Char),
        s.started = true → s.timedOut = false → s.returncode = none →
        findSentinelFrom sentinelChars (s.stdoutBuf ++ arrivedOut) = none →
        (s.run command arrivedOut arrivedErr).result
            = ToolResult.raisedException timedOutMsg) ∧
    (∀ arrivedOut arrivedErr : List Char,
        (BashTool.forward none [] false arrivedOut arrivedErr).result
            = ToolResult.raisedException noCommandMsg) := by
  refine ⟨?_, ?_, ?_⟩
  · intro s rc command arrivedOut arrivedErr hst hrc
    simp [BashSession.run, hst, hrc]
  · intro s command arrivedOut arrivedErr hst hto hrc hfind
    rw [run_timeout_eq s command arrivedOut arrivedErr hst hto hrc hfind]
  · intro arrivedOut arrivedErr
    rfl

/-- C6 amended witness: the three conditions evaluated at concrete
inputs. -/
theorem claim6_amended_witness :
    exitedSession.started = true ∧ exitedSession.returncode = some 0 ∧
    (exitedSession.run (String.toList "pwd") [] []).result
        = ToolResult.systemErrorResult mustRestartMsg (exitedMsg 0) ∧
    (startedFresh.run (String.toList "sleep 999") [] []).result
        = ToolResult.raisedException timedOutMsg ∧
    (BashTool.forward none [] false [] []).result
        = ToolResult.raisedException noCommandMsg :=
  ⟨by decide, by decide,
   claim6_amended_error_surface.1 exitedSession 0 (String.toList "pwd") [] []
     (by decide) (by decide),
   claim6_amended_error_surface.2.1 startedFresh (String.toList "sleep 999") [] []
     (by decide) (by decide) (by decide) (by decide),
   claim6_amended_error_surface.2.2 [] []⟩

/-- C7 (evaluated at the failing input): submitting the interrupt token
`ctrl+c` on a Running session writes the token's literal text (plus the
sentinel echo) to the process's stdin — the engine has no interrupt
handling at all, contradicting the tool's own input description
("Can be ctrl+c to interrupt the currently running process"); the shell
just reports "command not found" on stderr. -/
theorem claim7_ctrl_c_written_to_stdin :
    (startedFresh.run (String.toList "ctrl+c") (sentinelChars ++ ['\n'])
        (String.toList "bash: line 1: ctrl+c: command not found\n")).written
      = some (String.toList "ctrl+c; echo " ++ [quoteChar] ++
          String.toList "<<exit>>" ++ [quoteChar, '\n']) ∧
    (startedFresh.run (String.toList "ctrl+c") (sentinelChars ++ ['\n'])
        (String.toList "bash: line 1: ctrl+c: command not found\n")).result
      = ToolResult.outputResult []
          (String.toList "bash: line 1: ctrl+c: command not found") := by
  decide

/-- C9 counterexample: bytes that follow the sentinel in the output
buffer do not remain available — a successful run clears the whole
buffer, discarding them. -/
theorem claim9_counterexample :
    (startedFresh.run (String.toList "echo A")
        (String.toList "A\n<<exit>>\nEXTRA\n") []).result
        = ToolResult.outputResult (String.toList "A") [] ∧
    (startedFresh.run (String.toList "echo A")
        (String.toList "A\n<<exit>>\nEXTRA\n") []).session.stdoutBuf = [] ∧
    (startedFresh.run (String.toList "echo A")
        (String.toList "A\n<<exit>>\nEXTRA\n") []).session.stdoutBuf
      ≠ String.toList "\nEXTRA\n" := by
  decide

/-- C9 amended: on a successful execution the returned output is exactly
the buffer content preceding the first sentinel occurrence (one trailing
newline stripped); the error buffer is drained independently in full
(one trailing newline stripped); and both buffers are then cleared, so
the sentinel and every byte after it are discarded. -/
theorem claim9_amended_success_shape (s : BashSession)
    (command arrivedOut arrivedErr : List Char) (i : Nat)
    (hst : s.started = true) (hto : s.timedOut = false)
    (hrc : s.returncode = none)
    (hfind : findSentinelFrom sentinelChars (s.stdoutBuf ++ arrivedOut) = some i) :
    s.run command arrivedOut arrivedErr =
      ⟨ToolResult.outputResult
          (stripTrailingNewline ((s.stdoutBuf ++ arrivedOut).take i))
          (stripTrailingNewline (s.stderrBuf ++ arrivedErr)),
        some (writtenBytes command),
        { s with stdoutBuf := [], stderrBuf := [] }⟩ :=
  run_success_eq s command arrivedOut arrivedErr i hst hto hrc hfind

/-- C9 amended witness: the concrete buffer `"A\n<<exit>>\nEXTRA\n"`
yields output `"A"` and cleared buffers. -/
theorem claim9_witness :
    startedFresh.started = true ∧ startedFresh.timedOut = false ∧
    startedFresh.returncode = none ∧
    findSentinelFrom sentinelChars
        (startedFresh.stdoutBuf ++ String.toList "A\n<<exit>>\nEXTRA\n") = some 2 ∧
    startedFresh.run (String.toList "echo A") (String.toList "A\n<<exit>>\nEXTRA\n") []
      = ⟨ToolResult.outputResult
            (stripTrailingNewline ((startedFresh.stdoutBuf ++
              String.toList "A\n<<exit>>\nEXTRA\n").take 2))
            (stripTrailingNewline (startedFresh.stderrBuf ++ [])),
          some (writtenBytes (String.toList "echo A")),
          { startedFresh with stdoutBuf := [], stderrBuf := [] }⟩ :=
  ⟨by decide, by decide, by decide, by decide,
   claim9_amended_success_shape startedFresh (String.toList "echo A")
     (String.toList "A\n<<exit>>\nEXTRA\n") [] 2
     (by decide) (by decide) (by decide) (by decide)⟩

/-- C10: a `forward` call with `restart=false`, an empty command and no
existing session first creates and starts a new session, then raises the
"no command provided." exception — the failing call leaves the facade
holding a live, started session, with nothing written to it. -/
theorem claim10_empty_command_creates_session (arrivedOut arrivedErr : List Char) :
    BashTool.forward none [] false arrivedOut arrivedErr
        = ⟨ToolResult.raisedException noCommandMsg, some startedFresh, none⟩ ∧
    startedFresh.started = true := by
  exact ⟨rfl, by decide⟩
